import Mathlib

/-!
Shallow embedding of `src/examples/pprof_http.rs` (the pprof HTTP profiling
server) and proofs about it.  Machine integers (`u64`, `usize`) are modelled
as `Nat`, with an explicit `% 2 ^ 64` wherever the Rust code performs
wrapping arithmetic or where overflow is reachable.  Byte buffers
(`Vec<u8>`) are modelled as `List Nat`.  The effects the code obtains from
the outside world (the pprof profiler guard, the jemalloc profiling
controller, the timer/work race in `tokio::select!`) are passed in as
explicit oracle values, so every handler is a pure function of its request,
the shared state and those oracles.
-/

namespace PprofHttp

/-- Size of the `u64` value space; `u64` arithmetic wraps modulo this. -/
def U64_SIZE : Nat := 2 ^ 64

-- ============================================================================
-- CPU-intensive workload functions (pprof_http.rs lines 656-700)
-- ============================================================================

/-- `fibonacci_work` (lines 656-662): naive recursive Fibonacci on `u64`.
The addition `fibonacci_work (n-1) + fibonacci_work (n-2)` is `u64`
addition, hence taken modulo `2^64` (release-mode wrapping semantics). -/
def fibonacci_work : Nat → Nat
  | 0 => 0
  | 1 => 1
  | n + 2 => (fibonacci_work (n + 1) + fibonacci_work n) % U64_SIZE

/-- `is_prime` (lines 676-686): trial division up to the integer square
root.  The Rust source computes the bound as `(n as f64).sqrt() as u64`;
for every `n` in the range where `f64` represents `n` exactly this equals
`Nat.sqrt n`, which is how the bound is modelled here.  The loop
`for i in 2..=bound` returns `false` on the first divisor found. -/
def is_prime (n : Nat) : Bool :=
  if n < 2 then false
  else (List.range' 2 (Nat.sqrt n - 1)).all (fun i => n % i ≠ 0)

/-- `prime_number_work` (lines 665-673): collect all `num` in `2..=n` with
`is_prime num`, in increasing order. -/
def prime_number_work (n : Nat) : List Nat :=
  (List.range' 2 (n - 1)).filter (fun num => is_prime num)

/-- One iteration of the `hash_work` loop body (lines 692-697): wrapping
`u64` multiply/add followed by xor/shift mixing. -/
def hash_step (hash i : Nat) : Nat :=
  let h1 := (hash * 31 + i) % U64_SIZE
  let h2 := h1 ^^^ (h1 >>> 16)
  let h3 := (h2 * 0x85ebca6b) % U64_SIZE
  let h4 := h3 ^^^ (h3 >>> 13)
  let h5 := (h4 * 0xc2b2ae35) % U64_SIZE
  h5 ^^^ (h5 >>> 16)

/-- `hash_work` (lines 689-700): fold `hash_step` over `i = 0, …,
iterations - 1` starting from `hash = 0`. -/
def hash_work (iterations : Nat) : Nat :=
  (List.range iterations).foldl hash_step 0

-- ============================================================================
-- Query-string parameter parsing (pprof_http.rs lines 536-555)
-- ============================================================================

/-- Rust's `str::split(sep)` over the characters of the string:
`"a&&b".split('&')` yields `["a", "", "b"]` and `"".split('&')` yields
`[""]`. -/
def splitOnChar (sep : Char) : List Char → List (List Char)
  | [] => [[]]
  | c :: rest =>
    let r := splitOnChar sep rest
    if c = sep then [] :: r
    else
      match r with
      | [] => [[c]]
      | h :: t => (c :: h) :: t

/-- `str::strip_prefix`: remove `pre` from the front of `l` if present. -/
def stripFrontChars (pre l : List Char) : Option (List Char) :=
  if pre.isPrefixOf l then some (l.drop pre.length) else none

/-- Rust's `str::parse::<u64>()`: an optional leading `+`, then at least
one ASCII digit, no other characters, and the value must fit in `u64`
(otherwise the parse fails with an overflow error, i.e. `none`). -/
def parse_u64 (chars : List Char) : Option Nat :=
  let digits := match chars with
    | '+' :: rest => rest
    | l => l
  if digits ≠ [] ∧ digits.all (fun c => c.isDigit) then
    let v := digits.foldl (fun acc c => acc * 10 + (c.toNat - '0'.toNat)) 0
    if v < U64_SIZE then some v else none
  else
    none

/-- `parse_seconds_param` (lines 536-544): split the query on `&`, find the
first parameter starting with `seconds=`, strip that front, parse the rest
as `u64`, and keep the value only if `0 < seconds ≤ 300`. -/
def parse_seconds_param (query : Option String) : Option Nat :=
  query.bind fun q =>
    (((splitOnChar '&' q.data).find?
          (fun param => "seconds=".data.isPrefixOf param)).bind
        (fun param => stripFrontChars "seconds=".data param)).bind
      fun value =>
        (parse_u64 value).bind fun seconds =>
          if seconds > 0 ∧ seconds ≤ 300 then some seconds else none

/-- `parse_mb_param` (lines 547-555): split the query on `&`, find the
first parameter starting with `mb=`, strip that front, parse the rest as
`u64`, and keep the value only if `0 < mb ≤ 1024`. -/
def parse_mb_param (query : Option String) : Option Nat :=
  query.bind fun q =>
    (((splitOnChar '&' q.data).find?
          (fun param => "mb=".data.isPrefixOf param)).bind
        (fun param => stripFrontChars "mb=".data param)).bind
      fun value =>
        (parse_u64 value).bind fun mb =>
          if mb > 0 ∧ mb ≤ 1024 then some mb else none

-- ============================================================================
-- Shared application state (pprof_http.rs lines 58-72)
-- ============================================================================

/-- A `Vec<u8>` byte buffer. -/
abbrev Buf := List Nat

/-- `AppState` (lines 59-63): the shared service state.  In the source each
field sits behind its own `Arc<Mutex<_>>`; here the state is a record and
each handler is a transition on it (the lock structure itself is modelled
separately, see `LockId` below). -/
structure AppState where
  request_count : Nat
  memory_pool : List Buf
deriving Repr, DecidableEq

/-- `AppState::new` (lines 66-71). -/
def AppState.new : AppState := { request_count := 0, memory_pool := [] }

/-- Total byte size of the memory pool:
`pool.iter().map(|v| v.len()).sum::<usize>()`. -/
def totalPoolBytes (pool : List Buf) : Nat := (pool.map List.length).sum

-- ============================================================================
-- HTTP responses
-- ============================================================================

/-- A response body: `Bytes::from(String)` or `Bytes::from(Vec<u8>)`. -/
inductive Body
  | text (s : String)
  | bytes (b : Buf)
deriving Repr, DecidableEq

/-- Number of bytes in a body (ASCII text payloads: one byte per char). -/
def Body.byteLength : Body → Nat
  | .text s => s.length
  | .bytes b => b.length

structure HttpResponse where
  status : Nat
  headers : List (String × String)
  body : Body
deriving Repr, DecidableEq

/-- `error_response` (lines 567-573): 500 with `"Error: {message}\n"`. -/
def error_response (message : String) : HttpResponse :=
  { status := 500
    headers := [("Content-Type", "text/plain")]
    body := .text ("Error: " ++ message ++ "\n") }

/-- `not_found` (lines 558-564): 404 with the literal body
`"404 Not Found\n"`. -/
def not_found : HttpResponse :=
  { status := 404
    headers := [("Content-Type", "text/plain")]
    body := .text "404 Not Found\n" }

-- ============================================================================
-- Status endpoint (pprof_http.rs lines 162-240)
-- ============================================================================

/-- The `{:.2}` rendering of `total_bytes / 1024.0 / 1024.0` is modelled as
the value in hundredths of a MB; no claim depends on this rendering. -/
def mbString (totalBytes : Nat) : String :=
  toString (totalBytes * 100 / (1024 * 1024))

/-- The status page HTML (lines 167-233).  The constant HTML boilerplate
around the three dynamic inserts is abbreviated; the inserts — request
count, pool count, total MB — are modelled exactly as interpolated. -/
def statusPageBody (count pools totalBytes : Nat) : String :=
  "<!DOCTYPE html><html><p><strong>Requests Handled:</strong> "
    ++ toString count
    ++ "</p><div>Allocated memory pools: " ++ toString pools
    ++ "<br>Total allocated: " ++ mbString totalBytes ++ " MB</div></html>"

/-- `handle_status` (lines 162-240): reads both fields (each under its own
lock) and renders the status page. -/
def handle_status (st : AppState) : HttpResponse :=
  { status := 200
    headers := [("Content-Type", "text/html; charset=utf-8")]
    body := .text (statusPageBody st.request_count st.memory_pool.length
      (totalPoolBytes st.memory_pool)) }

-- ============================================================================
-- Work endpoint (pprof_http.rs lines 243-280)
-- ============================================================================

/-- The value computed (and discarded) by spawned work task `i`
(lines 247-264): kernel choice cycles by `i % 3`. -/
def work_task (i : Nat) : Nat :=
  match i % 3 with
  | 0 => fibonacci_work 35
  | 1 => (prime_number_work 100000).length
  | _ => hash_work 1000000

/-- `handle_work` (lines 243-280): spawns four `work_task`s, awaits all of
them, discards their results, and returns a fixed confirmation body. -/
def handle_work : HttpResponse :=
  { status := 200
    headers := [("Content-Type", "text/plain")]
    body := .text "CPU-intensive work completed! Try profiling with: curl -X POST \"http://localhost:8080/profile/cpu?seconds=10\" > cpu_profile.pb\n" }

-- ============================================================================
-- Allocate endpoint (pprof_http.rs lines 283-324)
-- ============================================================================

/-- Pattern 1 (line 296): one large contiguous block,
`vec![0u8; total_bytes / 2]`. -/
def pattern1Buf (total : Nat) : Buf := List.replicate (total / 2) 0

/-- Pattern 2 (lines 299-301): `total_bytes / 4 / 1024` blocks of 1024
bytes, block `i` filled with `(i % 256) as u8`. -/
def pattern2Bufs (total : Nat) : List Buf :=
  (List.range (total / 4 / 1024)).map fun i => List.replicate 1024 (i % 256)

/-- Pattern 3 (lines 304-307): 100 variable-sized blocks,
block `i` of size `(i + 1) * (total_bytes / 400)`, filled with `0xAA`. -/
def pattern3Bufs (total : Nat) : List Buf :=
  (List.range 100).map fun i => List.replicate ((i + 1) * (total / 400)) 0xAA

/-- The buffers `handle_allocate` pushes, in push order.  `total_bytes =
mb * 1024 * 1024` cannot overflow `u64`: `mb ≤ 1024` always holds (either
the parsed value passed the `mb ≤ 1024` filter or the default 10 is used),
so `total_bytes ≤ 2^30`. -/
def allocatedBufs (mb : Nat) : List Buf :=
  let total := mb * 1024 * 1024
  pattern1Buf total :: (pattern2Bufs total ++ pattern3Bufs total)

/-- `handle_allocate` (lines 283-324): parse `mb` (default 10), lock the
pool, push the three allocation patterns, report the new totals. -/
def handle_allocate (st : AppState) (query : Option String) :
    HttpResponse × AppState :=
  let mb := (parse_mb_param query).getD 10
  let pool := st.memory_pool ++ allocatedBufs mb
  let body := "Allocated " ++ toString mb ++ " MB successfully!\nTotal allocated: "
    ++ mbString (totalPoolBytes pool) ++ " MB across " ++ toString pool.length
    ++ " memory pools\n\nTry getting a heap profile:\ncurl -X POST http://localhost:8080/profile/memory > heap_profile.pb\ngo tool pprof -http=:9001 heap_profile.pb\n"
  ({ status := 200
     headers := [("Content-Type", "text/plain")]
     body := .text body },
   { st with memory_pool := pool })

-- ============================================================================
-- CPU profile endpoint (pprof_http.rs lines 327-423)
-- ============================================================================

/-- Oracle for the pprof profiler effects of one `/profile/cpu` request:
the results of `ProfilerGuard::new(100)`, `guard.report().build()`,
`report.pprof()` and `profile.write_to_writer(&mut body)` (the last one
carrying the serialized bytes on success). -/
structure CpuProfiler where
  start : Except String Unit
  buildReport : Except String Unit
  pprofConvert : Except String Unit
  encode : Except String Buf
deriving Repr

/-- Which arm of the `tokio::select!` on lines 374-381 completes first:
the `sleep(seconds)` timer or the join of the four workload tasks. -/
inductive RaceOutcome
  | timerFired
  | workFinished
deriving Repr, DecidableEq

/-- The value computed (and discarded) by background load task `i` on one
loop iteration (lines 344-364); kernel choice cycles by `i % 3`. -/
def cpu_load_kernel (i : Nat) : Nat :=
  match i % 3 with
  | 0 => fibonacci_work 30
  | 1 => (prime_number_work 10000).length
  | _ => hash_work 50000

/-- Iteration count of background load task `i` (line 346). -/
def cpu_load_iterations (i : Nat) : Nat := if i % 2 = 0 then 100000 else 50000

/-- The distinct message for an empty CPU profile (line 397). -/
def emptyCpuMsg : String :=
  "Generated profile is empty. This might be due to system limitations or insufficient CPU activity."

/-- The report phase of `handle_cpu_profile` (lines 384-422), entered after
the select: stop the profiler, build the report, convert to pprof, encode;
an empty encoded body is a distinct error, a non-empty one is the 200
payload.  It takes no input from the workload tasks. -/
def cpu_report_response (prof : CpuProfiler) : HttpResponse :=
  match prof.buildReport with
  | .error e => error_response ("Failed to build report: " ++ e)
  | .ok _ =>
    match prof.pprofConvert with
    | .error e => error_response ("Failed to generate pprof: " ++ e)
    | .ok _ =>
      match prof.encode with
      | .error e => error_response ("Failed to encode profile: " ++ e)
      | .ok body =>
        if body = [] then
          error_response emptyCpuMsg
        else
          { status := 200
            headers := [("Content-Type", "application/octet-stream"),
              ("Content-Disposition", "attachment; filename=\"cpu_profile.pb\"")]
            body := .bytes body }

/-- `handle_cpu_profile` (lines 327-423): parse `seconds` (default 10),
start the profiler (start failure is terminal), spawn the four
`cpu_load_kernel` tasks, race the timer against their join
(`tokio::select!`, outcome given by `race`; the losing work tasks are
abandoned, their outputs never read), then run the report phase.  The
parsed duration only feeds the timer, so it does not appear in the
response. -/
def handle_cpu_profile (prof : CpuProfiler) (race : RaceOutcome)
    (query : Option String) : HttpResponse :=
  let _seconds := (parse_seconds_param query).getD 10
  match prof.start with
  | .error e => error_response ("Failed to start profiler: " ++ e)
  | .ok _ =>
    match race with
    | .timerFired => cpu_report_response prof
    | .workFinished => cpu_report_response prof

-- ============================================================================
-- Demo allocation generator (pprof_http.rs lines 580-649)
-- ============================================================================

/-- `allocate_large_blocks` (lines 611-617). -/
def allocate_large_blocks : List Buf :=
  (List.range 10).map fun i => List.replicate ((i + 1) * 1024 * 1024) 0xAA

/-- `allocate_small_blocks` (lines 620-626). -/
def allocate_small_blocks : List Buf :=
  (List.range 1000).map fun i => List.replicate ((i % 100 + 1) * 1024) 0xBB

/-- `allocate_strings` (lines 629-639): 500 formatted strings as bytes. -/
def allocate_strings : List Buf :=
  (List.range 500).map fun i =>
    ("String allocation " ++ toString i
      ++ " - This is a demo string for heap profiling visualization").data.map
      Char.toNat

/-- `allocate_from_task` (lines 642-649). -/
def allocate_from_task (task_id : Nat) : List Buf :=
  (List.range 100).map fun i =>
    List.replicate ((i + 1) * 10000 * (task_id + 1)) (task_id % 256)

/-- `create_demo_allocations` (lines 580-608): the four patterns plus four
spawned per-task batches, concatenated. -/
def create_demo_allocations : List Buf :=
  allocate_large_blocks ++ allocate_small_blocks ++ allocate_strings
    ++ ((List.range 4).map allocate_from_task).flatten

-- ============================================================================
-- Memory profile endpoint (pprof_http.rs lines 429-523)
-- ============================================================================

/-- The `jemalloc_pprof::PROF_CTL` singleton as seen by one request:
whether activation succeeded at startup, and the result the serialized
`dump_pprof()` call would produce. -/
structure ProfCtl where
  activated : Bool
  dump_pprof : Except String Buf
deriving Repr

/-- The remediation message when `PROF_CTL` is absent (lines 436-443). -/
def ctlMissingMsg : String :=
  "Profiling controller not available. Ensure jemalloc is properly configured.\nRun with:\n_RJEM_MALLOC_CONF=prof:true,lg_prof_sample:0,prof_final:false \\\nRUSTFLAGS=\"-C force-frame-pointers=yes\" \\\ncargo run --example pprof_http --release"

/-- The remediation message when profiling is not activated
(lines 452-459). -/
def notActiveMsg : String :=
  "Jemalloc profiling is not active.\nRestart the server with:\n_RJEM_MALLOC_CONF=prof:true,lg_prof_sample:0,prof_final:false \\\nRUSTFLAGS=\"-C force-frame-pointers=yes\" \\\ncargo run --example pprof_http --release"

/-- The distinct message for an empty heap dump (lines 493-496). -/
def emptyHeapMsg : String :=
  "Generated heap profile is empty.\nThis might happen if no memory is allocated or jemalloc profiling is not working.\nTry allocating memory first: curl -X POST 'http://localhost:8080/allocate?mb=50'"

/-- `handle_memory_profile` (lines 429-523): if the controller is missing
or not activated, fail immediately with the remediation message (no dump,
no demo allocations).  Otherwise read the pool snapshot (informational),
create the temporary demo allocations (kept alive across the dump, dropped
after it), dump, and classify the result: hard failure, empty dump (its
own message), or 200 with the bytes.  The `AppState` is only read. -/
def handle_memory_profile (ctl : Option ProfCtl) (st : AppState) :
    HttpResponse × AppState :=
  match ctl with
  | none => (error_response ctlMissingMsg, st)
  | some c =>
    if !c.activated then
      (error_response notActiveMsg, st)
    else
      let _pool_snapshot := (totalPoolBytes st.memory_pool, st.memory_pool.length)
      let _temp_allocations := create_demo_allocations
      match c.dump_pprof with
      | .ok pprof_data =>
        if pprof_data = [] then
          (error_response emptyHeapMsg, st)
        else
          ({ status := 200
             headers := [("Content-Type", "application/octet-stream"),
               ("Content-Disposition", "attachment; filename=\"heap_profile.pb\"")]
             body := .bytes pprof_data }, st)
      | .error e => (error_response ("Failed to dump heap profile: " ++ e), st)

-- ============================================================================
-- Request dispatcher (pprof_http.rs lines 137-159)
-- ============================================================================

/-- HTTP methods distinguished by the dispatcher's match. -/
inductive Method
  | GET
  | POST
  | other
deriving Repr, DecidableEq

/-- Routing targets: the five handlers plus the 404 fallback. -/
inductive RouteTarget
  | status
  | work
  | allocate
  | cpuProfile
  | memoryProfile
  | notFound
deriving Repr, DecidableEq

/-- The dispatcher's `(method, path)` match (lines 151-158), as a routing
function. -/
def route (method : Method) (path : String) : RouteTarget :=
  match method, path with
  | .GET, "/" => .status
  | .GET, "/work" => .work
  | .POST, "/allocate" => .allocate
  | .POST, "/profile/cpu" => .cpuProfile
  | .POST, "/profile/memory" => .memoryProfile
  | _, _ => .notFound

/-- The external effects available to one dispatched request. -/
structure RequestEnv where
  prof : CpuProfiler
  race : RaceOutcome
  ctl : Option ProfCtl

/-- `handle_request` (lines 137-159): increment `request_count` under its
mutex (`u64` wrapping add, lines 144-149), then route by `(method, path)`
to exactly one handler. -/
def handle_request (env : RequestEnv) (method : Method) (path : String)
    (query : Option String) (st : AppState) : HttpResponse × AppState :=
  let st := { st with request_count := (st.request_count + 1) % U64_SIZE }
  match route method path with
  | .status => (handle_status st, st)
  | .work => (handle_work, st)
  | .allocate => handle_allocate st query
  | .cpuProfile => (handle_cpu_profile env.prof env.race query, st)
  | .memoryProfile => handle_memory_profile env.ctl st
  | .notFound => (not_found, st)

/-- Sequentially handle a list of requests (method, path, query, env). -/
def handle_requests (reqs : List (RequestEnv × Method × String × Option String))
    (st : AppState) : AppState :=
  reqs.foldl (fun s r => (handle_request r.1 r.2.1 r.2.2.1 r.2.2.2 s).2) st

-- ============================================================================
-- Lock structure (pprof_http.rs lines 59-63, 144-149, 163-164, 288-307)
-- ============================================================================

/-- The two `Arc<Mutex<_>>` fields of `AppState` (lines 60 and 62): each
field is guarded by its own mutex, a separate lock per field. -/
inductive LockId
  | requestCountLock
  | memoryPoolLock
deriving Repr, DecidableEq

/-- Lock-relevant events of a handler body, in program order. -/
inductive LockEvent
  | acquire (l : LockId)
  | release (l : LockId)
  | allocWork
deriving Repr, DecidableEq

/-- Lock/allocation event trace of `handle_allocate` (lines 283-324): the
pool mutex is locked on line 288, the three allocation patterns are built
on lines 296-307 while the guard is held, and the guard drops at the end
of the function. -/
def handle_allocate_trace : List LockEvent :=
  [.acquire .memoryPoolLock, .allocWork, .allocWork, .allocWork,
   .release .memoryPoolLock]

/-- Lock event trace of the counter increment in `handle_request`
(lines 144-149). -/
def increment_trace : List LockEvent :=
  [.acquire .requestCountLock, .release .requestCountLock]

/-- Lock event trace of `handle_status` (lines 163-164): the two locks are
taken one after the other, both guards held until the end. -/
def handle_status_trace : List LockEvent :=
  [.acquire .requestCountLock, .acquire .memoryPoolLock,
   .release .memoryPoolLock, .release .requestCountLock]

/-- Does the trace perform allocation work while at least one lock is
held?  (Scans the trace tracking the set of held locks.) -/
def workWhileHoldingAux (held : List LockId) : List LockEvent → Bool
  | [] => false
  | .acquire l :: rest => workWhileHoldingAux (l :: held) rest
  | .release l :: rest => workWhileHoldingAux (held.erase l) rest
  | .allocWork :: rest => !held.isEmpty || workWhileHoldingAux held rest

def workWhileHolding (trace : List LockEvent) : Bool :=
  workWhileHoldingAux [] trace

-- ============================================================================
-- Theorems
-- ============================================================================

/-- `Nat.fib 93` still fits in `u64` (and it is the largest such index). -/
lemma fib_93_lt : Nat.fib 93 < U64_SIZE := by decide

/-- Below index 94 the wrapping `u64` addition in `fibonacci_work` never
wraps, so it computes the mathematical Fibonacci sequence. -/
lemma fibonacci_work_eq_fib : ∀ n, n ≤ 93 → fibonacci_work n = Nat.fib n := by
  intro n
  induction n using Nat.strong_induction_on with
  | _ n ih =>
    match n with
    | 0 => intro _; simp [fibonacci_work]
    | 1 => intro _; simp [fibonacci_work]
    | m + 2 =>
      intro h
      rw [fibonacci_work, ih (m + 1) (by omega) (by omega), ih m (by omega) (by omega),
        Nat.add_comm (Nat.fib (m + 1)), ← Nat.fib_add_two]
      exact Nat.mod_eq_of_lt (lt_of_le_of_lt (Nat.fib_mono h) fib_93_lt)

/-- `is_prime` agrees with primality: trial division up to `Nat.sqrt n`
decides `Nat.Prime n`. -/
lemma is_prime_iff (n : Nat) : is_prime n = true ↔ Nat.Prime n := by
  unfold is_prime
  by_cases h2 : n < 2
  · rw [if_pos h2]
    simp only [Bool.false_eq_true, false_iff]
    intro hp
    exact absurd hp.two_le (by omega)
  · rw [if_neg h2]
    simp only [List.all_eq_true, decide_eq_true_eq]
    rw [Nat.prime_def_le_sqrt]
    constructor
    · intro hall
      refine ⟨by omega, fun m hm hms => fun hdvd => ?_⟩
      have hs : 1 ≤ Nat.sqrt n := Nat.le_sqrt.mpr (by omega)
      have hmem : m ∈ List.range' 2 (Nat.sqrt n - 1) := by
        rw [List.mem_range'_1]; omega
      exact hall m hmem (Nat.dvd_iff_mod_eq_zero.mp hdvd)
    · rintro ⟨-, hnd⟩ x hx
      rw [List.mem_range'_1] at hx
      intro hmod
      exact hnd x (by omega) (by omega) (Nat.dvd_iff_mod_eq_zero.mpr hmod)

/-- Membership in `prime_number_work n`: exactly the primes `≤ n`. -/
lemma mem_prime_number_work (n m : Nat) :
    m ∈ prime_number_work n ↔ Nat.Prime m ∧ m ≤ n := by
  unfold prime_number_work
  rw [List.mem_filter, List.mem_range'_1]
  constructor
  · rintro ⟨hr, hp⟩
    exact ⟨(is_prime_iff m).mp hp, by omega⟩
  · rintro ⟨hp, hle⟩
    have h2 := hp.two_le
    exact ⟨by omega, (is_prime_iff m).mpr hp⟩

/-- `prime_number_work` lists its primes in strictly increasing order. -/
lemma sorted_prime_number_work (n : Nat) :
    (prime_number_work n).Sorted (· < ·) :=
  List.Pairwise.filter _ (List.pairwise_lt_range' 2 (n - 1))

/-- C9: The workload generators are pure, stateless and deterministic:
`fibonacci_work` equals the Fibonacci recurrence with `fib 0 = 0`,
`fib 1 = 1` for all `n ≤ 93` (no `u64` overflow), and `prime_number_work n`
returns exactly the primes in `[2, n]` in increasing order. -/
theorem C9_workload_generators :
    (∀ n, n ≤ 93 → fibonacci_work n = Nat.fib n) ∧
    (∀ n m, m ∈ prime_number_work n ↔ Nat.Prime m ∧ m ≤ n) ∧
    (∀ n, (prime_number_work n).Sorted (· < ·)) :=
  ⟨fibonacci_work_eq_fib, mem_prime_number_work, sorted_prime_number_work⟩

/-- Witness for C9 at concrete inputs. -/
theorem C9_workload_generators_witness :
    fibonacci_work 10 = Nat.fib 10 ∧
    (7 ∈ prime_number_work 10 ↔ Nat.Prime 7 ∧ 7 ≤ 10) ∧
    (prime_number_work 10).Sorted (· < ·) :=
  ⟨C9_workload_generators.1 10 (by decide),
   C9_workload_generators.2.1 10 7,
   C9_workload_generators.2.2 10⟩

/-- One `hash_step` always lands back inside the `u64` range. -/
lemma hash_step_lt (a i : Nat) : hash_step a i < U64_SIZE := by
  unfold hash_step
  refine Nat.xor_lt_two_pow ?_ ?_
  · exact Nat.mod_lt _ (by norm_num [U64_SIZE])
  · rw [Nat.shiftRight_eq_div_pow]
    exact lt_of_le_of_lt (Nat.div_le_self _ _)
      (Nat.mod_lt _ (by norm_num [U64_SIZE]))

lemma foldl_hash_step_lt (l : List Nat) (a : Nat) (h : a < U64_SIZE) :
    l.foldl hash_step a < U64_SIZE := by
  induction l generalizing a with
  | nil => exact h
  | cons x xs ih => exact ih _ (hash_step_lt a x)

/-- C10: `hash_work` is total and never panics: every step is wrapping
arithmetic modulo `2^64` with xor/shift mixing, so the result is always a
well-formed `u64` value and satisfies the loop recurrence (two runs on the
same input trivially agree, `hash_work` being a function). -/
theorem C10_hash_work_total :
    (∀ iterations, hash_work iterations < U64_SIZE) ∧
    (∀ iterations, hash_work (iterations + 1) =
      hash_step (hash_work iterations) iterations) := by
  constructor
  · intro n
    exact foldl_hash_step_lt _ _ (by norm_num [U64_SIZE])
  · intro n
    unfold hash_work
    rw [List.range_succ, List.foldl_append]
    rfl

/-- Any value `parse_mb_param` accepts passed the `0 < mb ≤ 1024` filter;
contrapositive: every malformed or out-of-range `mb` is rejected, so the
handler's `.getD 10` default applies. -/
lemma parse_mb_param_range (q : Option String) (v : Nat)
    (h : parse_mb_param q = some v) : 1 ≤ v ∧ v ≤ 1024 := by
  rcases q with _ | s
  · simp [parse_mb_param] at h
  · simp only [parse_mb_param, Option.some_bind, Option.bind_eq_some] at h
    obtain ⟨val, hval, mb, hmb, h⟩ := h
    split_ifs at h with hc
    cases h; omega

/-- Any value `parse_seconds_param` accepts passed the
`0 < seconds ≤ 300` filter. -/
lemma parse_seconds_param_range (q : Option String) (v : Nat)
    (h : parse_seconds_param q = some v) : 1 ≤ v ∧ v ≤ 300 := by
  rcases q with _ | s
  · simp [parse_seconds_param] at h
  · simp only [parse_seconds_param, Option.some_bind, Option.bind_eq_some] at h
    obtain ⟨val, hval, secs, hsecs, h⟩ := h
    split_ifs at h with hc
    cases h; omega

/-- C5: Every out-of-range or malformed query value (`mb` zero, negative,
above 1024, or non-numeric; `seconds` zero, above 300, or non-numeric)
makes the parser reject, so the handlers fall back to the default 10
instead of erroring: every accepted `mb` is in `[1, 1024]` and every
accepted `seconds` is in `[1, 300]` (so all other values default), the
listed concrete malformed inputs all default to 10, a rejected `mb` makes
`handle_allocate` behave exactly like an absent query (default 10),
`handle_allocate` never errors, and `POST /profile/cpu?seconds=0` behaves
identically to `seconds=10`. -/
theorem C5_out_of_range_defaults :
    (∀ q v, parse_mb_param q = some v → 1 ≤ v ∧ v ≤ 1024) ∧
    (∀ q v, parse_seconds_param q = some v → 1 ≤ v ∧ v ≤ 300) ∧
    ((parse_mb_param (some "mb=0")).getD 10 = 10 ∧
     (parse_mb_param (some "mb=-5")).getD 10 = 10 ∧
     (parse_mb_param (some "mb=2000")).getD 10 = 10 ∧
     (parse_mb_param (some "mb=abc")).getD 10 = 10 ∧
     (parse_seconds_param (some "seconds=0")).getD 10 = 10 ∧
     (parse_seconds_param (some "seconds=301")).getD 10 = 10 ∧
     (parse_seconds_param (some "seconds=abc")).getD 10 = 10) ∧
    (∀ st q, parse_mb_param q = none →
      handle_allocate st q = handle_allocate st none) ∧
    (∀ st q, (handle_allocate st q).1.status = 200) ∧
    (∀ prof race, handle_cpu_profile prof race (some "seconds=0") =
      handle_cpu_profile prof race (some "seconds=10")) := by
  refine ⟨parse_mb_param_range, parse_seconds_param_range,
    ⟨by decide, by decide, by decide, by decide, by decide, by decide,
     by decide⟩, fun st q h => ?_, fun st q => rfl, fun prof race => rfl⟩
  unfold handle_allocate
  rw [h]
  rfl

/-- Witness for C5 at concrete inputs. -/
theorem C5_out_of_range_defaults_witness :
    (1 ≤ 500 ∧ 500 ≤ 1024) ∧ (1 ≤ 300 ∧ 300 ≤ 300) ∧
    handle_allocate AppState.new (some "mb=0") =
      handle_allocate AppState.new none :=
  ⟨C5_out_of_range_defaults.1 (some "mb=500") 500 (by decide),
   C5_out_of_range_defaults.2.1 (some "seconds=300") 300 (by decide),
   C5_out_of_range_defaults.2.2.2.1 AppState.new (some "mb=0") (by decide)⟩

/-- A fixed oracle environment used to instantiate theorems at concrete
requests. -/
def testEnv : RequestEnv :=
  { prof := { start := .ok (), buildReport := .ok (), pprofConvert := .ok ()
              encode := .ok [10, 20, 30] }
    race := .timerFired
    ctl := none }

/-- C6: The dispatcher routes each `(method, path)` to exactly one of the
five handlers — `GET /`, `GET /work`, `POST /allocate`,
`POST /profile/cpu`, `POST /profile/memory` — and every other combination
yields the 404 response whose body is exactly `"404 Not Found\n"`. -/
theorem C6_routing :
    (∀ m p, (route m p = .status ↔ m = .GET ∧ p = "/") ∧
            (route m p = .work ↔ m = .GET ∧ p = "/work") ∧
            (route m p = .allocate ↔ m = .POST ∧ p = "/allocate") ∧
            (route m p = .cpuProfile ↔ m = .POST ∧ p = "/profile/cpu") ∧
            (route m p = .memoryProfile ↔ m = .POST ∧ p = "/profile/memory")) ∧
    (∀ m p, route m p = .notFound ↔
      ¬((m = .GET ∧ p = "/") ∨ (m = .GET ∧ p = "/work") ∨
        (m = .POST ∧ p = "/allocate") ∨ (m = .POST ∧ p = "/profile/cpu") ∨
        (m = .POST ∧ p = "/profile/memory"))) ∧
    (∀ env m p q st, route m p = .notFound →
      (handle_request env m p q st).1 = not_found) ∧
    not_found.status = 404 ∧
    not_found.body = .text "404 Not Found\n" := by
  refine ⟨fun m p => ?_, fun m p => ?_, fun env m p q st h => ?_, rfl, rfl⟩
  · refine ⟨?_, ?_, ?_, ?_, ?_⟩ <;> (unfold route; split; all_goals simp_all)
  · unfold route; split; all_goals simp_all
  · simp [handle_request, h]

/-- Witness for C6: `GET /nonexistent` yields the 404 response. -/
theorem C6_routing_witness :
    (handle_request testEnv .GET "/nonexistent" none AppState.new).1 =
      not_found :=
  C6_routing.2.2.1 testEnv .GET "/nonexistent" none AppState.new (by decide)

lemma totalPoolBytes_append (a b : List Buf) :
    totalPoolBytes (a ++ b) = totalPoolBytes a + totalPoolBytes b := by
  simp [totalPoolBytes]

lemma sum_map_const (n c : Nat) :
    ((List.range n).map (fun _ => c)).sum = n * c := by
  induction n with
  | zero => simp
  | succ m ih =>
    rw [List.range_succ]
    simp [ih, Nat.succ_mul]

/-- Total size of the three allocation patterns, as exact arithmetic on
`total = mb * 1024 * 1024`. -/
lemma totalBytes_allocatedBufs (mb : Nat) :
    totalPoolBytes (allocatedBufs mb) =
      mb * 1024 * 1024 / 2 + (mb * 1024 * 1024 / 4 / 1024) * 1024 +
        5050 * (mb * 1024 * 1024 / 400) := by
  unfold allocatedBufs pattern1Buf pattern2Bufs pattern3Bufs totalPoolBytes
  simp only [List.map_cons, List.map_append, List.map_map, List.sum_cons,
    List.sum_append, Function.comp_def, List.length_replicate]
  rw [sum_map_const]
  rw [show (fun i => (i + 1) * (mb * 1024 * 1024 / 400)) =
    (fun i => (i + 1) * (mb * 1024 * 1024 / 400)) from rfl]
  rw [List.sum_map_mul_right]
  have h100 : ((List.range 100).map (fun i => i + 1)).sum = 5050 := by decide
  rw [h100]
  ring

/-- The three patterns together always over-allocate: at least
`mb * 1024 * 1024` bytes are appended. -/
lemma allocatedBufs_ge (mb : Nat) :
    mb * 1024 * 1024 ≤ totalPoolBytes (allocatedBufs mb) := by
  rw [totalBytes_allocatedBufs]
  have hb : 2621 * mb ≤ mb * 1024 * 1024 / 400 := by
    rw [Nat.le_div_iff_mul_le (by norm_num)]
    omega
  omega

/-- Every `handle_memory_profile` branch leaves the state unchanged. -/
lemma handle_memory_profile_state (ctl : Option ProfCtl) (st : AppState) :
    (handle_memory_profile ctl st).2 = st := by
  unfold handle_memory_profile
  cases ctl with
  | none => rfl
  | some c =>
    by_cases ha : c.activated
    · simp only [ha, Bool.not_true, Bool.false_eq_true, if_false]
      cases hd : c.dump_pprof with
      | ok d => by_cases hde : d = [] <;> simp [hde]
      | error e => rfl
    · simp [ha]

/-- C2: For every accepted `mb` (all accepted values lie in `[1, 1024]`,
see C5), `POST /allocate` appends `allocatedBufs mb` to the pool, whose
total byte size is at least `mb * 1024 * 1024`; and no request of the
service ever removes buffers from the pool — the old pool is always a
prefix of the new one (hence its total byte size never decreases). -/
theorem C2_allocate_grows_pool :
    (∀ st query mb, parse_mb_param query = some mb →
      (handle_allocate st query).2.memory_pool =
          st.memory_pool ++ allocatedBufs mb ∧
        mb * 1024 * 1024 ≤ totalPoolBytes (allocatedBufs mb)) ∧
    (∀ env m p q st,
      st.memory_pool <+: (handle_request env m p q st).2.memory_pool) ∧
    (∀ env m p q st,
      totalPoolBytes st.memory_pool ≤
        totalPoolBytes (handle_request env m p q st).2.memory_pool) := by
  have hpre : ∀ env m p q st,
      st.memory_pool <+: (handle_request env m p q st).2.memory_pool := by
    intro env m p q st
    unfold handle_request
    cases route m p
    · exact List.prefix_rfl
    · exact List.prefix_rfl
    · exact ⟨allocatedBufs ((parse_mb_param q).getD 10), rfl⟩
    · exact List.prefix_rfl
    · rw [handle_memory_profile_state]
    · exact List.prefix_rfl
  refine ⟨fun st query mb h => ⟨?_, allocatedBufs_ge mb⟩, hpre,
    fun env m p q st => ?_⟩
  · unfold handle_allocate
    rw [h]
    rfl
  · obtain ⟨tail, htail⟩ := hpre env m p q st
    rw [← htail, totalPoolBytes_append]
    omega

/-- Witness for C2 at a concrete request. -/
theorem C2_allocate_grows_pool_witness :
    ((handle_allocate AppState.new (some "mb=1")).2.memory_pool =
        AppState.new.memory_pool ++ allocatedBufs 1 ∧
      1 * 1024 * 1024 ≤ totalPoolBytes (allocatedBufs 1)) ∧
    AppState.new.memory_pool <+:
      (handle_request testEnv .POST "/allocate" (some "mb=1")
        AppState.new).2.memory_pool :=
  ⟨C2_allocate_grows_pool.1 AppState.new (some "mb=1") 1 (by decide),
   C2_allocate_grows_pool.2.1 testEnv .POST "/allocate" (some "mb=1")
     AppState.new⟩

/-- Every route — including the 404 fallback — sees exactly the one
counter increment performed before dispatch, and no handler modifies the
counter again. -/
lemma handle_request_count (env : RequestEnv) (m : Method) (p : String)
    (q : Option String) (st : AppState) :
    (handle_request env m p q st).2.request_count =
      (st.request_count + 1) % U64_SIZE := by
  unfold handle_request
  cases route m p
  · rfl
  · rfl
  · rfl
  · rfl
  · rw [handle_memory_profile_state]
  · rfl

lemma handle_requests_count (reqs : List (RequestEnv × Method × String × Option String))
    (st : AppState) (hst : st.request_count < U64_SIZE) :
    (handle_requests reqs st).request_count =
      (st.request_count + reqs.length) % U64_SIZE := by
  induction reqs generalizing st with
  | nil =>
    simp only [handle_requests, List.foldl_nil, List.length_nil, Nat.add_zero]
    exact (Nat.mod_eq_of_lt hst).symm
  | cons r rs ih =>
    simp only [handle_requests, List.foldl_cons, List.length_cons]
    rw [show (List.foldl (fun s r => (handle_request r.1 r.2.1 r.2.2.1 r.2.2.2 s).2)
        (handle_request r.1 r.2.1 r.2.2.1 r.2.2.2 st).2 rs) =
        handle_requests rs (handle_request r.1 r.2.1 r.2.2.1 r.2.2.2 st).2 from rfl]
    rw [ih _ (by rw [handle_request_count]; exact Nat.mod_lt _ (by norm_num [U64_SIZE])),
      handle_request_count, Nat.mod_add_mod]
    congr 1
    omega

/-- C1: Every dispatched request increments the shared `request_count` by
exactly 1 (as `u64` wrapping arithmetic) before routing, whichever handler
— including the 404 fallback — the request reaches; below the `u64` bound
the increment is exactly `+1` (so the counter is monotonically
non-decreasing), a sequence of `N` handled requests from the initial state
drives the counter to exactly `N` (for `N < 2^64`), and `GET /` observes
exactly the post-increment counter in the status page body. -/
theorem C1_request_count_increment :
    (∀ env m p q st, (handle_request env m p q st).2.request_count =
      (st.request_count + 1) % U64_SIZE) ∧
    (∀ env m p q st, st.request_count + 1 < U64_SIZE →
      (handle_request env m p q st).2.request_count =
        st.request_count + 1) ∧
    (∀ reqs, reqs.length < U64_SIZE →
      (handle_requests reqs AppState.new).request_count = reqs.length) ∧
    (∀ env q st, (handle_request env .GET "/" q st).1.body =
      .text (statusPageBody ((st.request_count + 1) % U64_SIZE)
        st.memory_pool.length (totalPoolBytes st.memory_pool))) := by
  refine ⟨handle_request_count, fun env m p q st h => ?_, fun reqs h => ?_,
    fun env q st => rfl⟩
  · rw [handle_request_count]
    exact Nat.mod_eq_of_lt h
  · rw [handle_requests_count reqs AppState.new (by norm_num [AppState.new, U64_SIZE])]
    simp only [AppState.new, Nat.zero_add]
    exact Nat.mod_eq_of_lt h

/-- Witness for C1: three sequential requests drive the counter to 3. -/
theorem C1_request_count_increment_witness :
    (handle_requests
        [(testEnv, .GET, "/", none), (testEnv, .GET, "/work", none),
         (testEnv, .GET, "/nonexistent", none)]
        AppState.new).request_count = 3 :=
  C1_request_count_increment.2.2.1
    [(testEnv, .GET, "/", none), (testEnv, .GET, "/work", none),
     (testEnv, .GET, "/nonexistent", none)]
    (by norm_num [U64_SIZE])

/-- If the CPU report phase answers 200, its body is a non-empty byte
payload. -/
lemma cpu_report_200 (prof : CpuProfiler)
    (h : (cpu_report_response prof).status = 200) :
    ∃ b, (cpu_report_response prof).body = .bytes b ∧ b ≠ [] := by
  unfold cpu_report_response at h ⊢
  cases hbr : prof.buildReport with
  | error e => rw [hbr] at h; simp [error_response] at h
  | ok u =>
    cases u
    rw [hbr] at h
    cases hpc : prof.pprofConvert with
    | error e => rw [hpc] at h; simp [error_response] at h
    | ok v =>
      cases v
      rw [hpc] at h
      cases hen : prof.encode with
      | error e => rw [hen] at h; simp [error_response] at h
      | ok b =>
        rw [hen] at h
        dsimp only at h ⊢
        by_cases hb : b = []
        · rw [if_pos hb] at h; simp [error_response] at h
        · rw [if_neg hb]
          exact ⟨b, rfl, hb⟩

/-- C3: An empty serialized CPU profile body, and an empty heap dump, each
produce a 500 error with its own dedicated "empty" message — never a 200
with an empty body — and those empty-artifact messages differ from every
hard-failure message the handlers can produce. -/
theorem C3_empty_artifact_is_error :
    (∀ prof race query, prof.start = .ok () → prof.buildReport = .ok () →
      prof.pprofConvert = .ok () → prof.encode = .ok [] →
      handle_cpu_profile prof race query = error_response emptyCpuMsg) ∧
    (∀ c st, c.activated = true → c.dump_pprof = .ok [] →
      (handle_memory_profile (some c) st).1 = error_response emptyHeapMsg) ∧
    (error_response emptyCpuMsg).status = 500 ∧
    (error_response emptyHeapMsg).status = 500 ∧
    (∀ prof race query, (handle_cpu_profile prof race query).status = 200 →
      ∃ b, (handle_cpu_profile prof race query).body = .bytes b ∧ b ≠ []) ∧
    (∀ ctl st, (handle_memory_profile ctl st).1.status = 200 →
      ∃ b, (handle_memory_profile ctl st).1.body = .bytes b ∧ b ≠ []) ∧
    (∀ e, emptyCpuMsg ≠ "Failed to start profiler: " ++ e) ∧
    (∀ e, emptyCpuMsg ≠ "Failed to build report: " ++ e) ∧
    (∀ e, emptyCpuMsg ≠ "Failed to generate pprof: " ++ e) ∧
    (∀ e, emptyCpuMsg ≠ "Failed to encode profile: " ++ e) ∧
    (∀ e, emptyHeapMsg ≠ "Failed to dump heap profile: " ++ e) := by
  refine ⟨fun prof race query hs hbr hpc hen => ?_, fun c st ha hd => ?_,
    rfl, rfl, fun prof race query h => ?_, fun ctl st h => ?_,
    fun e h => ?_, fun e h => ?_, fun e h => ?_, fun e h => ?_, fun e h => ?_⟩
  · cases race <;>
      simp [handle_cpu_profile, cpu_report_response, hs, hbr, hpc, hen]
  · simp [handle_memory_profile, ha, hd]
  · unfold handle_cpu_profile at h ⊢
    cases hs : prof.start with
    | error e => rw [hs] at h; simp [error_response] at h
    | ok u =>
      cases u
      rw [hs] at h
      cases race <;> exact cpu_report_200 prof h
  · unfold handle_memory_profile at h ⊢
    cases ctl with
    | none => simp [error_response] at h
    | some c =>
      by_cases ha : c.activated
      · simp only [ha, Bool.not_true, Bool.false_eq_true, if_false] at h ⊢
        cases hd : c.dump_pprof with
        | error e => rw [hd] at h; simp [error_response] at h
        | ok b =>
          rw [hd] at h
          dsimp only at h ⊢
          by_cases hb : b = []
          · rw [if_pos hb] at h; simp [error_response] at h
          · rw [if_neg hb]
            exact ⟨b, rfl, hb⟩
      · simp only [ha] at h
        simp [error_response] at h
  all_goals {
    have hh := congrArg (fun s => s.data.head?) h
    simp [emptyCpuMsg, emptyHeapMsg, String.data_append] at hh
  }

/-- Witness for C3 at concrete oracle outcomes. -/
theorem C3_empty_artifact_is_error_witness :
    handle_cpu_profile
        { start := .ok (), buildReport := .ok (), pprofConvert := .ok ()
          encode := .ok [] } .timerFired none = error_response emptyCpuMsg ∧
    (handle_memory_profile (some { activated := true, dump_pprof := .ok [] })
        AppState.new).1 = error_response emptyHeapMsg :=
  ⟨C3_empty_artifact_is_error.1 _ .timerFired none rfl rfl rfl rfl,
   C3_empty_artifact_is_error.2.1 _ AppState.new rfl rfl⟩

/-- C4: When the heap-profiling control object is missing, or present but
not activated, `POST /profile/memory` fails immediately with the 500
remediation response, the state is unchanged, and no dump is attempted:
the response cannot depend on what `dump_pprof` would have returned. -/
theorem C4_memory_profile_preconditions :
    (∀ st, handle_memory_profile none st = (error_response ctlMissingMsg, st)) ∧
    (∀ c st, c.activated = false →
      handle_memory_profile (some c) st = (error_response notActiveMsg, st)) ∧
    (∀ st d d', handle_memory_profile (some ⟨false, d⟩) st =
      handle_memory_profile (some ⟨false, d'⟩) st) ∧
    (error_response ctlMissingMsg).status = 500 ∧
    (error_response notActiveMsg).status = 500 := by
  have hna : ∀ c st, c.activated = false →
      handle_memory_profile (some c) st = (error_response notActiveMsg, st) := by
    intro c st ha
    simp [handle_memory_profile, ha]
  exact ⟨fun st => rfl, hna,
    fun st d d' => (hna ⟨false, d⟩ st rfl).trans (hna ⟨false, d'⟩ st rfl).symm,
    rfl, rfl⟩

/-- Witness for C4 at a concrete control object. -/
theorem C4_memory_profile_preconditions_witness :
    handle_memory_profile (some { activated := false, dump_pprof := .ok [1] })
        AppState.new = (error_response notActiveMsg, AppState.new) :=
  C4_memory_profile_preconditions.2.1
    { activated := false, dump_pprof := .ok [1] } AppState.new rfl

/-- C7: The `tokio::select!` race admits exactly the two outcomes — timer
first or all workload tasks first — and in both the handler proceeds to
stop the profiler and build the report: the response is the same function
`cpu_report_response` of the profiler oracle alone, so it cannot depend on
the abandoned workload tasks' output (their values are discarded inside
the spawned tasks and never reach the handler). -/
theorem C7_race_first_event_wins :
    (∀ prof query, handle_cpu_profile prof .timerFired query =
      handle_cpu_profile prof .workFinished query) ∧
    (∀ prof race query, prof.start = .ok () →
      handle_cpu_profile prof race query = cpu_report_response prof) := by
  refine ⟨fun prof query => rfl, fun prof race query hs => ?_⟩
  unfold handle_cpu_profile
  rw [hs]
  cases race <;> rfl

/-- Witness for C7 at a concrete profiler oracle. -/
theorem C7_race_first_event_wins_witness :
    handle_cpu_profile testEnv.prof .workFinished none =
      cpu_report_response testEnv.prof :=
  C7_race_first_event_wins.2 testEnv.prof .workFinished none rfl

/-- Does the trace acquire and release locks consistently (no re-entrant
acquire, no release of an unheld lock, nothing held at the end)? -/
def wellNestedAux (held : List LockId) : List LockEvent → Bool
  | [] => held.isEmpty
  | .acquire l :: rest => !held.contains l && wellNestedAux (l :: held) rest
  | .release l :: rest => held.contains l && wellNestedAux (held.erase l) rest
  | .allocWork :: rest => wellNestedAux held rest

def wellNested (t : List LockEvent) : Bool := wellNestedAux [] t

/-- C8 counterexample: the claim's locking story is false of the code.
`AppState` keeps `request_count` and `memory_pool` behind two *different*
mutexes, not one mutual-exclusion domain covering both fields; and
`handle_allocate` performs its allocation work *while holding* the pool
lock (the `vec!` allocations on lines 296-307 happen after the
`lock().await` on line 288), not before acquiring it. -/
theorem C8_counterexample_two_locks :
    ¬(LockId.requestCountLock = LockId.memoryPoolLock ∧
      workWhileHolding handle_allocate_trace = false) := by decide

/-- C8 (amended): each of the two `AppState` fields is guarded by its own
mutex — two distinct mutual-exclusion domains, one per field; every
operation uses its field's lock in a well-nested fashion (`handle_status`
holds both guards simultaneously, so its combined read of both fields is
itself consistent); and `handle_allocate` performs its heavy allocation
work while holding the pool lock. -/
theorem C8_lock_structure :
    LockId.requestCountLock ≠ LockId.memoryPoolLock ∧
    wellNested increment_trace = true ∧
    wellNested handle_allocate_trace = true ∧
    wellNested handle_status_trace = true ∧
    increment_trace.contains (.acquire .requestCountLock) = true ∧
    handle_allocate_trace.contains (.acquire .memoryPoolLock) = true ∧
    workWhileHolding handle_allocate_trace = true := by decide

end PprofHttp
